import Mathlib

/-!
Verification of the BAOU notification monitor (src/server.js).

The JavaScript source is embedded shallowly:
* strings are modelled as `List Char` (and, where byte-level behaviour
  matters, as `List Nat` of UTF-8 byte values);
* ISO timestamp strings that the code compares via `new Date(...)` are
  modelled by their epoch-millisecond value as an `Int`;
* fallible external calls (file reads/writes, JSON.parse, the mail API)
  are modelled by explicit outcome parameters, exactly mirroring the
  control flow of the surrounding try/catch blocks;
* `String.prototype.toLowerCase` is modelled by ASCII lowercasing
  (identity on all other characters, in particular on the Gujarati
  characters used by the keyword sets, which have no case).
-/

namespace BAOU

/-- Standard base64 alphabet, as used by Node `Buffer.toString("base64")`:
index 0..25 ↦ A..Z, 26..51 ↦ a..z, 52..61 ↦ 0..9, 62 ↦ plus, 63 ↦ slash. -/
def base64Char (n : Nat) : Char :=
  if n < 26 then Char.ofNat (65 + n)
  else if n < 52 then Char.ofNat (97 + (n - 26))
  else if n < 62 then Char.ofNat (48 + (n - 52))
  else if n = 62 then Char.ofNat 43
  else Char.ofNat 47

/-- Base64 encoding of a byte list, with `=` padding, as produced by
Node `Buffer.from(s).toString("base64")`. -/
def base64Encode : List Nat → List Char
  | [] => []
  | [b1] =>
      [base64Char (b1 / 4), base64Char (b1 % 4 * 16), Char.ofNat 61, Char.ofNat 61]
  | [b1, b2] =>
      [base64Char (b1 / 4), base64Char (b1 % 4 * 16 + b2 / 16),
       base64Char (b2 % 16 * 4), Char.ofNat 61]
  | b1 :: b2 :: b3 :: rest =>
      base64Char (b1 / 4) :: base64Char (b1 % 4 * 16 + b2 / 16) ::
      base64Char (b2 % 16 * 4 + b3 / 64) :: base64Char (b3 % 64) ::
      base64Encode rest

/-- src/server.js line 105-107:
`Buffer.from(text + "-" + timestamp).toString("base64").slice(0, 12)`.
`text` and `timestamp` are the UTF-8 bytes of the two argument strings;
45 is the byte of the ASCII hyphen joining them. -/
def generateNotificationId (text timestamp : List Nat) : List Char :=
  (base64Encode (text ++ 45 :: timestamp)).take 12

/-- UTF-8 bytes of an ASCII string (for ASCII, code point = byte value). -/
def asciiBytes (s : String) : List Nat :=
  s.toList.map Char.toNat

/-- Model of JS `toLowerCase` on one character: ASCII A-Z are lowered,
every other character (including Gujarati) is left unchanged. -/
def toLowerChar (c : Char) : Char :=
  if 65 ≤ c.toNat ∧ c.toNat ≤ 90 then Char.ofNat (c.toNat + 32) else c

/-- Model of JS `s.toLowerCase()`. -/
def lowerList (l : List Char) : List Char :=
  l.map toLowerChar

/-- Whether `needle` occurs at the very start of `hay`. -/
def headMatch : List Char → List Char → Bool
  | [], _ => true
  | _ :: _, [] => false
  | a :: as, b :: bs => a == b && headMatch as bs

/-- Model of JS `hay.includes(needle)`: `needle` occurs as a contiguous
substring of `hay` (the empty needle always matches, as in JS). -/
def containsSub (needle : List Char) : List Char → Bool
  | [] => headMatch needle []
  | b :: bs => headMatch needle (b :: bs) || containsSub needle bs

/-- src/server.js lines 63-78: the fixed urgency keyword list
(English plus two Gujarati words). -/
def urgentKeywords : List (List Char) :=
  ["urgent".toList, "immediate".toList, "important".toList, "deadline".toList,
   "today".toList, "tomorrow".toList, "asap".toList, "emergency".toList,
   "critical".toList, "required".toList, "mandatory".toList, "due".toList,
   "અગત્યની".toList, "તાકીદની".toList]

/-- src/server.js lines 62-82: `detectUrgency` - true iff some keyword,
lowercased, is a substring of the lowercased text. -/
def detectUrgency (text : List Char) : Bool :=
  urgentKeywords.any fun keyword => containsSub (lowerList keyword) (lowerList text)

/-- The closed category enumeration of src/server.js lines 84-103. -/
inductive Category where
  | EXAM
  | ASSIGNMENT
  | SCHEDULE
  | ANNOUNCEMENT
  | DEADLINE
  | OTHER
deriving DecidableEq, Repr

/-- src/server.js line 86: keyword set for EXAM. -/
def examKeywords : List (List Char) :=
  ["exam".toList, "examination".toList, "test".toList, "assessment".toList,
   "પરીક્ષા".toList]

/-- src/server.js line 87: keyword set for ASSIGNMENT. -/
def assignmentKeywords : List (List Char) :=
  ["assignment".toList, "homework".toList, "submission".toList, "સ્વાધ્યાય".toList]

/-- src/server.js line 88: keyword set for SCHEDULE. -/
def scheduleKeywords : List (List Char) :=
  ["schedule".toList, "timetable".toList, "dates".toList, "સમયપત્રક".toList]

/-- src/server.js line 89: keyword set for ANNOUNCEMENT. -/
def announcementKeywords : List (List Char) :=
  ["announcement".toList, "notice".toList, "circular".toList, "સૂચના".toList]

/-- src/server.js line 90: keyword set for DEADLINE. -/
def deadlineKeywords : List (List Char) :=
  ["last date".toList, "deadline".toList, "due date".toList, "અંતિમ તારીખ".toList]

/-- Whether some keyword of the set, lowercased, is a substring of the
lowercased text (the `keywords.some(...)` test of src/server.js line 95). -/
def matchesKeywords (text : List Char) (keywords : List (List Char)) : Bool :=
  keywords.any fun keyword => containsSub (lowerList keyword) (lowerList text)

/-- src/server.js lines 84-103: `categorizeNotification` - the for-in loop
over the category table returns on the first matching keyword set, in
object-literal insertion order EXAM, ASSIGNMENT, SCHEDULE, ANNOUNCEMENT,
DEADLINE, and falls through to OTHER. -/
def categorizeNotification (text : List Char) : Category :=
  if matchesKeywords text examKeywords then Category.EXAM
  else if matchesKeywords text assignmentKeywords then Category.ASSIGNMENT
  else if matchesKeywords text scheduleKeywords then Category.SCHEDULE
  else if matchesKeywords text announcementKeywords then Category.ANNOUNCEMENT
  else if matchesKeywords text deadlineKeywords then Category.DEADLINE
  else Category.OTHER

/-- A scraped notification record, src/server.js lines 283-291. The JS
`timestamp` is an ISO string compared through `new Date`; it is modelled
by its epoch-millisecond value. -/
structure Notice where
  id : List Char
  text : List Char
  link : Option (List Char)
  isNew : Bool
  isUrgent : Bool
  timestamp : Int
  category : Category
deriving DecidableEq, Repr

/-- src/server.js line 120: `notification.text.toLowerCase().includes("important")`. -/
def hasImportant (text : List Char) : Bool :=
  containsSub ("important".toList) (lowerList text)

/-- The accumulated score of src/server.js lines 115-120. -/
def priorityScore (n : Notice) : Nat :=
  (if n.isUrgent then 2 else 0) + (if n.isNew then 1 else 0) +
    (if n.category = Category.DEADLINE then 1 else 0) +
    (if hasImportant n.text then 1 else 0)

/-- src/server.js lines 114-123: `calculatePriority` - the accumulated
score capped by `Math.min(5, score)`. -/
def calculatePriority (n : Notice) : Nat :=
  min 5 (priorityScore n)

/-- The 24-hour recency window of src/server.js line 376, in milliseconds:
`24 * 60 * 60 * 1000`. -/
def recencyWindowMs : Int := 24 * 60 * 60 * 1000

/-- The per-history-entry test of src/server.js lines 373-376:
`prev.id === current.id || (prev.text === current.text &&
new Date(prev.timestamp) > new Date(Date.now() - 24*60*60*1000))`,
with `now` standing for `Date.now()`. -/
def isDuplicateOf (now : Int) (current prev : Notice) : Bool :=
  decide (prev.id = current.id) ||
    (decide (prev.text = current.text) && decide (now - recencyWindowMs < prev.timestamp))

/-- src/server.js lines 371-378: the diff step -
`currentNotifications.filter(c => !previousNotifications.some(...))`. -/
def diffNotifications (now : Int) (current history : List Notice) : List Notice :=
  current.filter fun c => ! history.any fun prev => isDuplicateOf now c prev

/-- Observable outcome of one monitoring cycle: whether an email dispatch
was attempted, and the History that ends up persisted. -/
structure CycleOutcome where
  emailAttempted : Bool
  savedHistory : List Notice
deriving DecidableEq, Repr

/-- src/server.js lines 358-389: `monitorNotifications`, after the load.
`current = none` models a failed fetch (early return); `emailSucceeds`
models the boolean result of `sendEmailNotification`. When new notices
exist, email is attempted; only on success is
`[...newNotifications, ...previousNotifications]` saved as History. -/
def monitorNotifications (now : Int) (history : List Notice)
    (current : Option (List Notice)) (emailSucceeds : Bool) : CycleOutcome :=
  match current with
  | none => { emailAttempted := false, savedHistory := history }
  | some cur =>
      let newOnes := diffNotifications now cur history
      if newOnes.length > 0 then
        if emailSucceeds then
          { emailAttempted := true, savedHistory := newOnes ++ history }
        else
          { emailAttempted := true, savedHistory := history }
      else
        { emailAttempted := false, savedHistory := history }

/-- Outcome of `readFile(CONFIG.storageFile)` in src/server.js line 308:
the file may be missing (ENOENT), unreadable for another reason, or read
successfully with some content. -/
inductive ReadOutcome where
  | enoent
  | readErr
  | ok (data : String)

/-- src/server.js lines 306-316: `loadPreviousNotifications`. Every throw
inside the try (read failure of either kind, and `JSON.parse` failure,
modelled by the Option-valued `parseJson` parameter) lands in the catch,
which returns `[]`. -/
def loadPreviousNotifications (r : ReadOutcome)
    (parseJson : String → Option (List Notice)) : List Notice :=
  match r with
  | .enoent => []
  | .readErr => []
  | .ok data =>
      match parseJson data with
      | some ns => ns
      | none => []

/-- Which writes of a save were attempted and which succeeded. -/
structure SaveTrace where
  backupAttempted : Bool
  backupWritten : Bool
  mainAttempted : Bool
  mainWritten : Bool
deriving DecidableEq, Repr

/-- src/server.js lines 318-326: `saveNotifications`. The two `writeFile`
calls (backup first, then the main storage file) are sequential inside a
single try/catch, so a throw from the backup write jumps to the catch and
the main write is never attempted; a throw from the main write leaves the
already-written backup in place (no rollback). The boolean parameters
model the outcome each write would have. -/
def saveNotifications (backupFails mainFails : Bool) : SaveTrace :=
  if backupFails then
    { backupAttempted := true, backupWritten := false,
      mainAttempted := false, mainWritten := false }
  else if mainFails then
    { backupAttempted := true, backupWritten := true,
      mainAttempted := true, mainWritten := false }
  else
    { backupAttempted := true, backupWritten := true,
      mainAttempted := true, mainWritten := true }

/-- src/server.js lines 337-339: the email subject template literal
`BAOU: ${n} New Notification${n !== 1 ? "s" : ""}${any urgent ? " (URGENT)" : ""}`. -/
def subjectLine (ns : List Notice) : List Char :=
  ("BAOU: ".toList) ++ (Nat.repr ns.length).toList ++ (" New Notification".toList) ++
    (if ns.length ≠ 1 then ("s".toList) else []) ++
    (if ns.any (fun n => n.isUrgent) then (" (URGENT)".toList) else [])

/-- Spec-side reading of a keyword-set match: some keyword of the set,
lowercased, occurs as a substring of the lowercased text. -/
def keywordHit (text : List Char) (keywords : List (List Char)) : Prop :=
  ∃ k ∈ keywords, containsSub (lowerList k) (lowerList text) = true

/-- A concrete non-urgent notice used to instantiate general theorems. -/
def sampleNoticeA : Notice :=
  { id := "QUJD".toList, text := "Hello world".toList, link := none,
    isNew := false, isUrgent := false, timestamp := 1000,
    category := Category.OTHER }

/-- A concrete urgent notice used to instantiate general theorems. -/
def sampleNoticeUrgent : Notice :=
  { id := "WFla".toList, text := "Urgent meeting today".toList, link := none,
    isNew := false, isUrgent := true, timestamp := 2000,
    category := Category.ANNOUNCEMENT }

/-- The diff-time instant used in the concrete 25-hour re-alert scenario. -/
def reDetectNow : Int := 1735689600000

/-- Current-batch notice of the 25-hour scenario. -/
def c2CurrentNotice : Notice :=
  { id := "Y3Vy".toList, text := "Result declared".toList, link := none,
    isNew := false, isUrgent := false, timestamp := 1735689500000,
    category := Category.OTHER }

/-- History notice of the 25-hour scenario: same text as
`c2CurrentNotice`, different id, timestamp 25 hours before `reDetectNow`. -/
def c2HistNotice : Notice :=
  { id := "aGlz".toList, text := "Result declared".toList, link := none,
    isNew := false, isUrgent := false,
    timestamp := 1735689600000 - 25 * 60 * 60 * 1000,
    category := Category.OTHER }

/-- A notice whose `isUrgent` field is computed from its own text, as
`fetchNotifications` does at src/server.js line 288. -/
def importantNotice : Notice :=
  { id := "aW1w".toList, text := "Important exam notice".toList, link := none,
    isNew := false, isUrgent := detectUrgency ("Important exam notice".toList),
    timestamp := 0, category := Category.EXAM }

end BAOU

/-- C2: the diff step outputs a current notice iff no history entry has an
equal id and no history entry has equal text with a timestamp inside the
24-hour window before `now`; the output is a sublist of the current batch
(original relative order preserved); with empty history every current
notice is output; and a current notice whose identical text appears in
history only with a 25-hour-old timestamp is output as new. -/
theorem claim_C2 (now : Int) (current history : List BAOU.Notice) :
    (∀ x, x ∈ BAOU.diffNotifications now current history ↔
      x ∈ current ∧ ∀ prev ∈ history,
        ¬(prev.id = x.id ∨
          (prev.text = x.text ∧ now - BAOU.recencyWindowMs < prev.timestamp)))
    ∧ List.Sublist (BAOU.diffNotifications now current history) current
    ∧ BAOU.diffNotifications now current [] = current
    ∧ BAOU.diffNotifications BAOU.reDetectNow [BAOU.c2CurrentNotice] [BAOU.c2HistNotice] =
        [BAOU.c2CurrentNotice] := by
  refine ⟨?_, ?_, ?_, by decide⟩
  · intro x
    constructor
    · intro hx
      rw [BAOU.diffNotifications, List.mem_filter] at hx
      obtain ⟨hmem, hb⟩ := hx
      rw [Bool.not_eq_true', List.any_eq_false] at hb
      refine ⟨hmem, fun prev hp => ?_⟩
      have hfalse := hb prev hp
      simp only [BAOU.isDuplicateOf, Bool.or_eq_true, Bool.and_eq_true,
        decide_eq_true_eq] at hfalse
      exact hfalse
    · rintro ⟨hmem, hall⟩
      rw [BAOU.diffNotifications, List.mem_filter]
      refine ⟨hmem, ?_⟩
      rw [Bool.not_eq_true', List.any_eq_false]
      intro prev hp
      simp only [BAOU.isDuplicateOf, Bool.or_eq_true, Bool.and_eq_true,
        decide_eq_true_eq]
      exact hall prev hp
  · exact List.filter_sublist _
  · simp [BAOU.diffNotifications]

/-- C2 witness: with empty history the single-notice batch is returned
unchanged. -/
theorem claim_C2_witness :
    BAOU.diffNotifications 0 [BAOU.sampleNoticeA] [] = [BAOU.sampleNoticeA] :=
  (claim_C2 0 [BAOU.sampleNoticeA] []).2.2.1

/-- C3: calculatePriority is exactly the capped additive score
min 5 (2·urgent + 1·isNew + 1·DEADLINE + 1·"important"); it never exceeds
5, and setting any single contributing flag never decreases it. -/
theorem claim_C3 (n : BAOU.Notice) :
    BAOU.calculatePriority n =
      min 5 ((if n.isUrgent then 2 else 0) + (if n.isNew then 1 else 0) +
        (if n.category = BAOU.Category.DEADLINE then 1 else 0) +
        (if BAOU.hasImportant n.text then 1 else 0))
    ∧ BAOU.calculatePriority n ≤ 5
    ∧ BAOU.calculatePriority n ≤ BAOU.calculatePriority { n with isUrgent := true }
    ∧ BAOU.calculatePriority n ≤ BAOU.calculatePriority { n with isNew := true }
    ∧ BAOU.calculatePriority n ≤
        BAOU.calculatePriority { n with category := BAOU.Category.DEADLINE }
    ∧ ∀ t, BAOU.hasImportant t = true →
        BAOU.calculatePriority n ≤ BAOU.calculatePriority { n with text := t } := by
  obtain ⟨nid, ntext, nlink, nNew, nUrg, nts, ncat⟩ := n
  refine ⟨rfl, Nat.min_le_left _ _, ?_, ?_, ?_, ?_⟩
  · cases nUrg <;> cases nNew <;> rcases eq_or_ne ncat BAOU.Category.DEADLINE with hc | hc <;>
      cases hImp : BAOU.hasImportant ntext <;>
      simp [BAOU.calculatePriority, BAOU.priorityScore, hc, hImp]
  · cases nUrg <;> cases nNew <;> rcases eq_or_ne ncat BAOU.Category.DEADLINE with hc | hc <;>
      cases hImp : BAOU.hasImportant ntext <;>
      simp [BAOU.calculatePriority, BAOU.priorityScore, hc, hImp]
  · cases nUrg <;> cases nNew <;> rcases eq_or_ne ncat BAOU.Category.DEADLINE with hc | hc <;>
      cases hImp : BAOU.hasImportant ntext <;>
      simp [BAOU.calculatePriority, BAOU.priorityScore, hc, hImp]
  · intro t ht
    cases nUrg <;> cases nNew <;> rcases eq_or_ne ncat BAOU.Category.DEADLINE with hc | hc <;>
      cases hImp : BAOU.hasImportant ntext <;>
      simp [BAOU.calculatePriority, BAOU.priorityScore, hc, hImp, ht]

/-- C3 witness: replacing the sample notice's text by a text containing
"important" does not decrease the priority. -/
theorem claim_C3_witness :
    BAOU.calculatePriority BAOU.sampleNoticeA ≤
      BAOU.calculatePriority { BAOU.sampleNoticeA with text := "important update".toList } :=
  (claim_C3 BAOU.sampleNoticeA).2.2.2.2.2 ("important update".toList) (by decide)

/-- C4: categorizeNotification returns the first category, in the fixed
order EXAM, ASSIGNMENT, SCHEDULE, ANNOUNCEMENT, DEADLINE, whose keyword
set has a case-insensitive substring hit in the text, and OTHER when no
set hits; "Final exam schedule announced" classifies as EXAM. -/
theorem claim_C4 (text : List Char) :
    (BAOU.categorizeNotification text = BAOU.Category.EXAM ↔
      BAOU.keywordHit text BAOU.examKeywords)
    ∧ (BAOU.categorizeNotification text = BAOU.Category.ASSIGNMENT ↔
      (¬ BAOU.keywordHit text BAOU.examKeywords ∧
        BAOU.keywordHit text BAOU.assignmentKeywords))
    ∧ (BAOU.categorizeNotification text = BAOU.Category.SCHEDULE ↔
      (¬ BAOU.keywordHit text BAOU.examKeywords ∧
        ¬ BAOU.keywordHit text BAOU.assignmentKeywords ∧
        BAOU.keywordHit text BAOU.scheduleKeywords))
    ∧ (BAOU.categorizeNotification text = BAOU.Category.ANNOUNCEMENT ↔
      (¬ BAOU.keywordHit text BAOU.examKeywords ∧
        ¬ BAOU.keywordHit text BAOU.assignmentKeywords ∧
        ¬ BAOU.keywordHit text BAOU.scheduleKeywords ∧
        BAOU.keywordHit text BAOU.announcementKeywords))
    ∧ (BAOU.categorizeNotification text = BAOU.Category.DEADLINE ↔
      (¬ BAOU.keywordHit text BAOU.examKeywords ∧
        ¬ BAOU.keywordHit text BAOU.assignmentKeywords ∧
        ¬ BAOU.keywordHit text BAOU.scheduleKeywords ∧
        ¬ BAOU.keywordHit text BAOU.announcementKeywords ∧
        BAOU.keywordHit text BAOU.deadlineKeywords))
    ∧ (BAOU.categorizeNotification text = BAOU.Category.OTHER ↔
      (¬ BAOU.keywordHit text BAOU.examKeywords ∧
        ¬ BAOU.keywordHit text BAOU.assignmentKeywords ∧
        ¬ BAOU.keywordHit text BAOU.scheduleKeywords ∧
        ¬ BAOU.keywordHit text BAOU.announcementKeywords ∧
        ¬ BAOU.keywordHit text BAOU.deadlineKeywords))
    ∧ BAOU.categorizeNotification ("Final exam schedule announced".toList) =
        BAOU.Category.EXAM := by
  have bridge : ∀ ks, BAOU.keywordHit text ks ↔ BAOU.matchesKeywords text ks = true := by
    intro ks
    simp [BAOU.matchesKeywords, BAOU.keywordHit, List.any_eq_true]
  refine ⟨?_, ?_, ?_, ?_, ?_, ?_, by decide⟩ <;>
    (simp only [bridge]
     cases h1 : BAOU.matchesKeywords text BAOU.examKeywords <;>
     cases h2 : BAOU.matchesKeywords text BAOU.assignmentKeywords <;>
     cases h3 : BAOU.matchesKeywords text BAOU.scheduleKeywords <;>
     cases h4 : BAOU.matchesKeywords text BAOU.announcementKeywords <;>
     cases h5 : BAOU.matchesKeywords text BAOU.deadlineKeywords <;>
     simp [BAOU.categorizeNotification, h1, h2, h3, h4, h5])

/-- C4 witness: the concrete classification of the scenario text. -/
theorem claim_C4_witness :
    BAOU.categorizeNotification ("Final exam schedule announced".toList) =
      BAOU.Category.EXAM :=
  (claim_C4 []).2.2.2.2.2.2

/-- C5: detectUrgency is true iff some keyword of the fixed multilingual
set occurs as a case-insensitive substring of the text; there is no
word-boundary requirement, so "due" occurring inside the longer word
"Undue" counts. -/
theorem claim_C5 (text : List Char) :
    (BAOU.detectUrgency text = true ↔
      ∃ k ∈ BAOU.urgentKeywords,
        BAOU.containsSub (BAOU.lowerList k) (BAOU.lowerList text) = true)
    ∧ BAOU.detectUrgency ("Undue".toList) = true := by
  constructor
  · simp [BAOU.detectUrgency, List.any_eq_true]
  · decide

/-- C5 witness: the substring-inside-a-word scenario evaluated concretely. -/
theorem claim_C5_witness : BAOU.detectUrgency ("Undue".toList) = true :=
  (claim_C5 []).2

/-- C1 counterexample: the id is the first 12 base64 characters, i.e. a
function of only the first 9 bytes of `text-timestamp`. For text "Exam"
and the two distinct ISO timestamps 2025-01-01T00:00:00.000Z and
2025-01-02T00:00:00.000Z (which agree on their first 4 characters), the
two ids are equal, refuting the claim that any two distinct discovery
timestamps yield different ids. -/
theorem claim_C1_counterexample :
    BAOU.asciiBytes ("2025-01-01T00:00:00.000Z") ≠ BAOU.asciiBytes ("2025-01-02T00:00:00.000Z") ∧
    BAOU.generateNotificationId (BAOU.asciiBytes ("Exam"))
        (BAOU.asciiBytes ("2025-01-01T00:00:00.000Z")) =
      BAOU.generateNotificationId (BAOU.asciiBytes ("Exam"))
        (BAOU.asciiBytes ("2025-01-02T00:00:00.000Z")) := by
  exact ⟨by decide, by decide⟩

/-- C1 (amended): generateNotificationId is a deterministic function of
`(text, timestamp)`, but distinct timestamps need not give distinct ids:
the id depends only on the first 9 bytes of `text-timestamp`, so whenever
the text is at least 8 bytes long the id is independent of the timestamp
and two scrapes of the same notice on different runs yield the same id. -/
theorem claim_C1 (text t1 t2 : List Nat) (h : 8 ≤ text.length) :
    BAOU.generateNotificationId text t1 = BAOU.generateNotificationId text t2 := by
  rcases text with _ | ⟨a, text⟩
  · simp at h
  rcases text with _ | ⟨b, text⟩
  · simp at h
  rcases text with _ | ⟨c, text⟩
  · simp at h
  rcases text with _ | ⟨d, text⟩
  · simp at h
  rcases text with _ | ⟨e, text⟩
  · simp at h
  rcases text with _ | ⟨f, text⟩
  · simp at h
  rcases text with _ | ⟨g, text⟩
  · simp at h
  rcases text with _ | ⟨h8, rest⟩
  · simp at h
  rcases rest with _ | ⟨i, rest2⟩
  · rfl
  · rfl

/-- C1 witness: the amended theorem applied at text "Deadline" (8 bytes)
and two concrete distinct timestamps. -/
theorem claim_C1_witness :
    8 ≤ (BAOU.asciiBytes ("Deadline")).length ∧
    BAOU.generateNotificationId (BAOU.asciiBytes ("Deadline")) (BAOU.asciiBytes ("2025-03-01T10:00:00.000Z")) =
      BAOU.generateNotificationId (BAOU.asciiBytes ("Deadline")) (BAOU.asciiBytes ("2026-07-31T23:59:59.999Z")) :=
  ⟨by decide, claim_C1 (BAOU.asciiBytes ("Deadline")) (BAOU.asciiBytes ("2025-03-01T10:00:00.000Z"))
    (BAOU.asciiBytes ("2026-07-31T23:59:59.999Z")) (by decide)⟩

/-- C6: the persisted History is rewritten - as the diff output prepended
to the prior history - only when the diff produced at least one new
notice and the email dispatch succeeded; an empty diff output means no
dispatch is attempted and History is unchanged; a failed dispatch leaves
History unchanged. -/
theorem claim_C6 (now : Int) (history cur : List BAOU.Notice) (emailOk : Bool) :
    ((BAOU.monitorNotifications now history (some cur) emailOk).savedHistory ≠ history →
      BAOU.diffNotifications now cur history ≠ [] ∧ emailOk = true ∧
      (BAOU.monitorNotifications now history (some cur) emailOk).savedHistory =
        BAOU.diffNotifications now cur history ++ history)
    ∧ (BAOU.diffNotifications now cur history = [] →
      (BAOU.monitorNotifications now history (some cur) emailOk).emailAttempted = false ∧
      (BAOU.monitorNotifications now history (some cur) emailOk).savedHistory = history)
    ∧ (emailOk = false →
      (BAOU.monitorNotifications now history (some cur) emailOk).savedHistory = history)
    ∧ (BAOU.diffNotifications now cur history ≠ [] → emailOk = true →
      (BAOU.monitorNotifications now history (some cur) emailOk).emailAttempted = true ∧
      (BAOU.monitorNotifications now history (some cur) emailOk).savedHistory =
        BAOU.diffNotifications now cur history ++ history) := by
  by_cases hd : BAOU.diffNotifications now cur history = [] <;> cases emailOk <;>
    simp [BAOU.monitorNotifications, hd, List.length_pos]

/-- C6 witness: a successful cycle over empty history with one fetched
notice attempts the email and persists that notice prepended. -/
theorem claim_C6_witness :
    (BAOU.monitorNotifications 0 [] (some [BAOU.sampleNoticeA]) true).emailAttempted = true ∧
    (BAOU.monitorNotifications 0 [] (some [BAOU.sampleNoticeA]) true).savedHistory =
      BAOU.diffNotifications 0 [BAOU.sampleNoticeA] [] ++ [] :=
  (claim_C6 0 [] [BAOU.sampleNoticeA] true).2.2.2 (by decide) rfl

/-- C7 counterexample: with a failing backup write (first write of the
pair), the main history write is never attempted - the writes are
sequential inside one try/catch - refuting the claim that a failure of
one write does not prevent the attempt of the other. -/
theorem claim_C7_counterexample :
    (BAOU.saveNotifications true false).backupAttempted = true ∧
    (BAOU.saveNotifications true false).backupWritten = false ∧
    (BAOU.saveNotifications true false).mainAttempted = false := by
  decide

/-- C7 (amended): on every save the backup write is attempted first and
the main write follows it in the same error scope: the main write is
attempted iff the backup write did not fail, and when the main write then
fails the already-written backup is kept (no rollback). -/
theorem claim_C7 (backupFails mainFails : Bool) :
    (BAOU.saveNotifications backupFails mainFails).backupAttempted = true
    ∧ ((BAOU.saveNotifications backupFails mainFails).mainAttempted = true ↔
        backupFails = false)
    ∧ (backupFails = false →
        (BAOU.saveNotifications backupFails mainFails).backupWritten = true ∧
        (BAOU.saveNotifications backupFails mainFails).mainWritten = (!mainFails)) := by
  cases backupFails <;> cases mainFails <;> decide

/-- C7 witness: a successful backup followed by a failing main write
leaves the backup written and the main file unwritten. -/
theorem claim_C7_witness :
    (BAOU.saveNotifications false true).backupWritten = true ∧
    (BAOU.saveNotifications false true).mainWritten = false :=
  (claim_C7 false true).2.2 rfl

/-- C8: for every non-empty batch, the subject is "BAOU: ", the count,
" New Notification", an "s" iff the count is not 1, and " (URGENT)" iff
some notice of the batch is urgent; evaluated on concrete batches of one
non-urgent and of two notices with one urgent. -/
theorem claim_C8 (ns : List BAOU.Notice) (_hne : ns ≠ []) :
    BAOU.subjectLine ns =
      ("BAOU: ".toList) ++ (Nat.repr ns.length).toList ++ (" New Notification".toList) ++
        (if ns.length = 1 then [] else ("s".toList)) ++
        (if ∃ n ∈ ns, n.isUrgent = true then (" (URGENT)".toList) else [])
    ∧ BAOU.subjectLine [BAOU.sampleNoticeA] = "BAOU: 1 New Notification".toList
    ∧ BAOU.subjectLine [BAOU.sampleNoticeA, BAOU.sampleNoticeUrgent] =
        "BAOU: 2 New Notifications (URGENT)".toList := by
  refine ⟨?_, by decide, by decide⟩
  by_cases h1 : ns.length = 1 <;> by_cases h2 : ∃ n ∈ ns, n.isUrgent = true <;>
    simp [BAOU.subjectLine, h1, h2, List.any_eq_true]

/-- C8 witness: the general equality applied at the concrete singleton
batch. -/
theorem claim_C8_witness :
    BAOU.subjectLine [BAOU.sampleNoticeA] = "BAOU: 1 New Notification".toList :=
  (claim_C8 [BAOU.sampleNoticeA] (by decide)).2.1

/-- C9: loadPreviousNotifications returns the empty list on every failure
- missing file, unreadable file, and unparsable content alike - and with
that empty History the diff step returns every current notice as new. -/
theorem claim_C9 :
    (∀ parseJson, BAOU.loadPreviousNotifications BAOU.ReadOutcome.enoent parseJson = [])
    ∧ (∀ parseJson, BAOU.loadPreviousNotifications BAOU.ReadOutcome.readErr parseJson = [])
    ∧ (∀ data parseJson, parseJson data = none →
        BAOU.loadPreviousNotifications (BAOU.ReadOutcome.ok data) parseJson = [])
    ∧ (∀ (now : Int) (cur : List BAOU.Notice) data parseJson, parseJson data = none →
        BAOU.diffNotifications now cur
          (BAOU.loadPreviousNotifications (BAOU.ReadOutcome.ok data) parseJson) = cur) := by
  refine ⟨fun _ => rfl, fun _ => rfl, ?_, ?_⟩
  · intro data parseJson hp
    simp [BAOU.loadPreviousNotifications, hp]
  · intro now cur data parseJson hp
    simp [BAOU.loadPreviousNotifications, hp, BAOU.diffNotifications]

/-- C9 witness: a file whose content fails to parse loads as the empty
history. -/
theorem claim_C9_witness :
    BAOU.loadPreviousNotifications (BAOU.ReadOutcome.ok ("not json")) (fun _ => none) = [] :=
  claim_C9.2.2.1 ("not json") (fun _ => none) rfl

/-- C10: any text containing "important" case-insensitively is detected
as urgent (the word is itself an urgency keyword), so a notification
whose isUrgent flag is computed from its own text and whose text contains
"important" scores at least 3. -/
theorem claim_C10 :
    (∀ text, BAOU.hasImportant text = true → BAOU.detectUrgency text = true)
    ∧ (∀ n : BAOU.Notice, n.isUrgent = BAOU.detectUrgency n.text →
        BAOU.hasImportant n.text = true → 3 ≤ BAOU.calculatePriority n) := by
  have himp : ∀ text, BAOU.hasImportant text = true → BAOU.detectUrgency text = true := by
    intro text ht
    have hlow : BAOU.lowerList ("important".toList) = "important".toList := by decide
    refine List.any_eq_true.mpr ⟨"important".toList, by decide, ?_⟩
    rw [hlow]
    exact ht
  refine ⟨himp, ?_⟩
  intro n hu him
  have hurg : n.isUrgent = true := by
    rw [hu]
    exact himp n.text him
  refine le_min (by norm_num) ?_
  simp only [BAOU.priorityScore, hurg, him, if_true]
  cases n.isNew <;> rcases eq_or_ne n.category BAOU.Category.DEADLINE with hc | hc <;>
    simp [hc]

/-- C10 witness: a notice whose isUrgent flag is computed from its own
text containing "Important" scores at least 3. -/
theorem claim_C10_witness : 3 ≤ BAOU.calculatePriority BAOU.importantNotice :=
  claim_C10.2 BAOU.importantNotice rfl (by decide)
